import Mathlib

namespace Solid

/-- UTF-8 encoding of one code point, as Go's `[]byte(string)` lays it out. -/
def utf8EncodeRune (c : Char) : List Nat :=
  let v := c.val.toNat
  if v < 0x80 then [v]
  else if v < 0x800 then [0xC0 + v / 0x40, 0x80 + v % 0x40]
  else if v < 0x10000 then [0xE0 + v / 0x1000, 0x80 + (v / 0x40) % 0x40, 0x80 + v % 0x40]
  else [0xF0 + v / 0x40000, 0x80 + (v / 0x1000) % 0x40, 0x80 + (v / 0x40) % 0x40, 0x80 + v % 0x40]

/-- The raw bytes of a string: `[]byte(s)`. -/
def stringBytes (s : String) : List Nat :=
  s.data.flatMap utf8EncodeRune

namespace sha256

def K : List Nat := [
  0x428a2f98, 0x71374491, 0xb5c0fbcf, 0xe9b5dba5, 0x3956c25b, 0x59f111f1, 0x923f82a4, 0xab1c5ed5,
  0xd807aa98, 0x12835b01, 0x243185be, 0x550c7dc3, 0x72be5d74, 0x80deb1fe, 0x9bdc06a7, 0xc19bf174,
  0xe49b69c1, 0xefbe4786, 0x0fc19dc6, 0x240ca1cc, 0x2de92c6f, 0x4a7484aa, 0x5cb0a9dc, 0x76f988da,
  0x983e5152, 0xa831c66d, 0xb00327c8, 0xbf597fc7, 0xc6e00bf3, 0xd5a79147, 0x06ca6351, 0x14292967,
  0x27b70a85, 0x2e1b2138, 0x4d2c6dfc, 0x53380d13, 0x650a7354, 0x766a0abb, 0x81c2c92e, 0x92722c85,
  0xa2bfe8a1, 0xa81a664b, 0xc24b8b70, 0xc76c51a3, 0xd192e819, 0xd6990624, 0xf40e3585, 0x106aa070,
  0x19a4c116, 0x1e376c08, 0x2748774c, 0x34b0bcb5, 0x391c0cb3, 0x4ed8aa4a, 0x5b9cca4f, 0x682e6ff3,
  0x748f82ee, 0x78a5636f, 0x84c87814, 0x8cc70208, 0x90befffa, 0xa4506ceb, 0xbef9a3f7, 0xc67178f2]

def init : List Nat := [
  0x6a09e667, 0xbb67ae85, 0x3c6ef372, 0xa54ff53a, 0x510e527f, 0x9b05688c, 0x1f83d9ab, 0x5be0cd19]

/-- 32-bit right rotation. -/
def rotr (x n : Nat) : Nat :=
  ((x >>> n) ||| (x <<< (32 - n))) % 2 ^ 32

/-- Message padding: 0x80, zeros up to 56 mod 64, then the bit length on 8 bytes, big endian. -/
def pad (msg : List Nat) : List Nat :=
  let len := msg.length
  let bits := (len * 8) % 2 ^ 64
  msg ++ [0x80] ++ List.replicate ((119 - len % 64) % 64) 0
    ++ (List.range 8).map (fun i => (bits >>> (8 * (7 - i))) % 256)

/-- Big-endian 32-bit words of a byte sequence (length a multiple of 4). -/
def toWords : Nat → List Nat → List Nat
  | 0, _ => []
  | n + 1, bs =>
    (bs.getD 0 0 * 2 ^ 24 + bs.getD 1 0 * 2 ^ 16 + bs.getD 2 0 * 2 ^ 8 + bs.getD 3 0)
      :: toWords n (bs.drop 4)

/-- Extends the schedule, kept newest-first, by n further words. -/
def extend : Nat → List Nat → List Nat
  | 0, w => w
  | n + 1, w =>
    let v1 := w.getD 1 0
    let v2 := w.getD 14 0
    let t1 := rotr v1 17 ^^^ rotr v1 19 ^^^ (v1 >>> 10)
    let t2 := rotr v2 7 ^^^ rotr v2 18 ^^^ (v2 >>> 3)
    extend n (((t1 + w.getD 6 0 + t2 + w.getD 15 0) % 2 ^ 32) :: w)

/-- The 64-word message schedule of a 16-word block. -/
def schedule (block : List Nat) : List Nat :=
  (extend 48 block.reverse).reverse

structure Regs where
  a : Nat
  b : Nat
  c : Nat
  d : Nat
  e : Nat
  f : Nat
  g : Nat
  h : Nat
deriving DecidableEq, Repr

def round (r : Regs) (kw : Nat × Nat) : Regs :=
  let t1 := r.h + (rotr r.e 6 ^^^ rotr r.e 11 ^^^ rotr r.e 25)
    + ((r.e &&& r.f) ^^^ ((r.e ^^^ (2 ^ 32 - 1)) &&& r.g)) + kw.1 + kw.2
  let t2 := (rotr r.a 2 ^^^ rotr r.a 13 ^^^ rotr r.a 22)
    + ((r.a &&& r.b) ^^^ (r.a &&& r.c) ^^^ (r.b &&& r.c))
  { a := (t1 + t2) % 2 ^ 32, b := r.a, c := r.b, d := r.c,
    e := (r.d + t1) % 2 ^ 32, f := r.e, g := r.f, h := r.g }

/-- Compression of one 16-word block into the chaining value. -/
def block (hs : Regs) (blk : List Nat) : Regs :=
  let r := (K.zip (schedule blk)).foldl round hs
  { a := (hs.a + r.a) % 2 ^ 32, b := (hs.b + r.b) % 2 ^ 32, c := (hs.c + r.c) % 2 ^ 32,
    d := (hs.d + r.d) % 2 ^ 32, e := (hs.e + r.e) % 2 ^ 32, f := (hs.f + r.f) % 2 ^ 32,
    g := (hs.g + r.g) % 2 ^ 32, h := (hs.h + r.h) % 2 ^ 32 }

def blocks : Nat → Regs → List Nat → Regs
  | 0, hs, _ => hs
  | n + 1, hs, ws => blocks n (block hs (ws.take 16)) (ws.drop 16)

def wordBytes (w : Nat) : List Nat :=
  [(w >>> 24) % 256, (w >>> 16) % 256, (w >>> 8) % 256, w % 256]

/-- The 32-byte digest: `sha256.Sum256`. -/
def Sum256 (msg : List Nat) : List Nat :=
  let p := pad msg
  let r := blocks (p.length / 64)
    ⟨0x6a09e667, 0xbb67ae85, 0x3c6ef372, 0xa54ff53a, 0x510e527f, 0x9b05688c, 0x1f83d9ab, 0x5be0cd19⟩
    (toWords (p.length / 4) p)
  [r.a, r.b, r.c, r.d, r.e, r.f, r.g, r.h].flatMap wordBytes

end sha256

namespace base64

/-- The URL-safe alphabet of RFC 4648. -/
def encodeURL : List Char :=
  "ABCDEFGHIJKLMNOPQRSTUVWXYZabcdefghijklmnopqrstuvwxyz0123456789-_".data

def sym (i : Nat) : Char := encodeURL.getD i 'A'

/-- Unpadded encoding: `base64.RawURLEncoding.EncodeToString`. -/
def rawURLEncode : List Nat → List Char
  | [] => []
  | [b0] => [sym (b0 / 4), sym (b0 % 4 * 16)]
  | [b0, b1] => [sym (b0 / 4), sym (b0 % 4 * 16 + b1 / 16), sym (b1 % 16 * 4)]
  | b0 :: b1 :: b2 :: rest =>
    sym (b0 / 4) :: sym (b0 % 4 * 16 + b1 / 16) :: sym (b1 % 16 * 4 + b2 / 64) :: sym (b2 % 64)
      :: rawURLEncode rest

def RawURLEncodingEncodeToString (bs : List Nat) : String :=
  String.mk (rawURLEncode bs)

end base64

/-- The S256 transform of RFC 7636 as the handler computes it. -/
def computedVerifier (codeVerifier : String) : String :=
  base64.RawURLEncodingEncodeToString (sha256.Sum256 (stringBytes codeVerifier))

/-! ## Strings: `strings.Fields` -/

/-- White space as `unicode.IsSpace` defines it. -/
def isSpace (c : Char) : Bool :=
  let v := c.val.toNat
  (0x09 ≤ v && v ≤ 0x0D) || v == 0x20 || v == 0x85 || v == 0xA0 || v == 0x1680
    || (0x2000 ≤ v && v ≤ 0x200A) || v == 0x2028 || v == 0x2029 || v == 0x202F
    || v == 0x205F || v == 0x3000

/-- Scans the input, holding the field being read in reverse. -/
def fieldsFrom : List Char → List Char → List String
  | cur, [] => if cur.isEmpty then [] else [String.mk cur.reverse]
  | cur, c :: cs =>
    if isSpace c then
      if cur.isEmpty then fieldsFrom [] cs else String.mk cur.reverse :: fieldsFrom [] cs
    else fieldsFrom (c :: cur) cs

/-- Splits around each run of white space: `strings.Fields`. -/
def Fields (s : String) : List String :=
  fieldsFrom [] s.data

/-! ## Data model -/

/-- Go error values: the storage sentinel, any other failure, and `fmt.Errorf` results
(the last with or without a wrapped cause). -/
inductive error where
  | ErrNotFound : error
  | other (msg : String) : error
  | Errorf (format : String) (args : List String) : error
  | ErrorfW (format : String) (args : List String) (wrapped : error) : error
deriving DecidableEq, Repr

/-- Modelled from the spec: the protocol error object of `corev1.Error`, declared outside the
files at hand; it carries an RFC 6749 error code and the echoed state. -/
structure Error where
  Err : String
  State : String
deriving DecidableEq, Repr

namespace rfcerrors

/-- Modelled from the spec: `rfcerrors.ServerError`, the `server_error` object with a state. -/
def ServerError (state : String) : Error := { Err := "server_error", State := state }

/-- Modelled from the spec: `rfcerrors.InvalidGrant`, the `invalid_grant` object with a state. -/
def InvalidGrant (state : String) : Error := { Err := "invalid_grant", State := state }

/-- Modelled from the spec: `rfcerrors.UnsupportedGrantType`, the `unsupported_grant_type`
object with a state. -/
def UnsupportedGrantType (state : String) : Error :=
  { Err := "unsupported_grant_type", State := state }

end rfcerrors

/-- String collections: `types.StringArray`. -/
abbrev StringArray := List String

/-- Modelled from the spec: `types.StringArray.Contains`, declared outside the files at hand;
the spec speaks of set membership. The handler below takes its membership test as an argument,
and this one instantiates it. -/
def StringArray.Contains (s : StringArray) (item : String) : Bool :=
  s.contains item

/-- Modelled from the spec: the package constant `grantTypeAuthorizationCode`, declared outside
the files at hand. -/
def grantTypeAuthorizationCode : String := "authorization_code"

/-- The fields of `registrationv1.Client` the handler reads. -/
structure Client where
  GrantTypes : List String
  RedirectUris : List String
deriving DecidableEq, Repr

/-- The authorization_code payload of a token request. -/
structure GrantAuthorizationCode where
  Code : String
  CodeVerifier : String
  RedirectUri : String
deriving DecidableEq, Repr

/-- The grant variants of a token request; the authorization_code wrapper holds a pointer. -/
inductive TokenRequestGrant where
  | AuthorizationCode (g : Option GrantAuthorizationCode) : TokenRequestGrant
  | sibling (name : String) : TokenRequestGrant
deriving DecidableEq, Repr

structure TokenRequest where
  Grant : Option TokenRequestGrant
deriving DecidableEq, Repr

/-- Modelled from the spec: the generated getter `(*TokenRequest).GetAuthorizationCode`,
declared outside the files at hand; like the getters of `Session` it answers nil on a nil
receiver and on any other grant variant. -/
def TokenRequest.GetAuthorizationCode (x : Option TokenRequest) : Option GrantAuthorizationCode :=
  match x with
  | none => none
  | some r =>
    match r.Grant with
    | some (TokenRequestGrant.AuthorizationCode g) => g
    | _ => none

/-- The fields of `corev1.AuthorizationRequest` the handler reads. -/
structure AuthorizationRequest where
  Scope : String
  State : String
  RedirectUri : String
  CodeChallenge : String
  CodeChallengeMethod : String
deriving DecidableEq, Repr

/-- Token holder `corev1.OpenIDToken`; the refresh token is a `*wrappers.StringValue`. -/
structure OpenIDToken where
  AccessToken : String := ""
  TokenType : String := ""
  ExpiresIn : Nat := 0
  RefreshToken : Option String := none
deriving DecidableEq, Repr

structure TokenResponse where
  Error : Option Error := none
  Openid : Option OpenIDToken := none
deriving DecidableEq, Repr

/-- The collaborators of the token service over a world σ: the authorization-request store and
the token generator. Each call returns its result and the next world. A lookup answers a
request or an error, never neither. -/
structure service (σ : Type) where
  authorizationRequests_GetByCode : String → σ → Except error AuthorizationRequest × σ
  accessTokenGenerator_Generate : σ → Except error String × σ

/-- Result of a handler call: the response, the diagnostic and the world it leaves. -/
structure Outcome (σ : Type) where
  res : TokenResponse
  err : Option error
  world : σ

/-! ## The handler -/

/-- Steps 7 and 8 of the handler: the tokens a resolved request is entitled to. -/
def issueTokens {σ : Type} (contains : StringArray → String → Bool) (s : service σ)
    (ar : AuthorizationRequest) (w : σ) : Outcome σ :=
  let scopes := Fields ar.Scope
  if contains scopes "openid" then
    match s.accessTokenGenerator_Generate w with
    | (Except.error err, w1) =>
      { res := { Error := some (rfcerrors.ServerError ar.State) },
        err := some (error.ErrorfW "unbale to generate an accessToken: %w" [] err), world := w1 }
    | (Except.ok tok, w1) =>
      if contains scopes "offline_access" then
        match s.accessTokenGenerator_Generate w1 with
        | (Except.error err, w2) =>
          { res := { Error := some (rfcerrors.ServerError ar.State) },
            err := some (error.ErrorfW "unbale to generate an accessToken: %w" [] err),
            world := w2 }
        | (Except.ok rt, w2) =>
          { res := { Openid := some { AccessToken := tok, RefreshToken := some rt,
                                      TokenType := "Bearer", ExpiresIn := 3600 } },
            err := none, world := w2 }
      else
        { res := { Openid := some { AccessToken := tok, TokenType := "Bearer",
                                    ExpiresIn := 3600 } },
          err := none, world := w1 }
  else
    { res := {}, err := none, world := w }

/-- Step 6 of the handler, the switch on the stored challenge method, followed by issuance. -/
def checkPKCE {σ : Type} (contains : StringArray → String → Bool) (s : service σ)
    (grant : GrantAuthorizationCode) (ar : AuthorizationRequest) (w1 : σ) : Outcome σ :=
  if ar.CodeChallengeMethod == "S256" || ar.CodeChallengeMethod == "s256" then
    if computedVerifier grant.CodeVerifier != ar.CodeChallenge then
      { res := { Error := some (rfcerrors.InvalidGrant ar.State) },
        err := some (error.Errorf
          "unable to validate PKCE code_verifier `%s` and code_challenge `%s`"
          [computedVerifier grant.CodeVerifier, ar.CodeChallenge]),
        world := w1 }
    else issueTokens contains s ar w1
  else
    { res := { Error := some (rfcerrors.InvalidGrant ar.State) },
      err := some (error.Errorf "invalid code_challenge_method in request `%s`"
        [ar.CodeChallengeMethod]),
      world := w1 }

/-- The authorization_code grant handler `(*service).authorizationCode`. -/
def authorizationCode {σ : Type} (contains : StringArray → String → Bool) (s : service σ)
    (client : Option Client) (req : Option TokenRequest) (w : σ) : Outcome σ :=
  let grant := TokenRequest.GetAuthorizationCode req
  match client with
  | none =>
    { res := { Error := some (rfcerrors.ServerError "") },
      err := some (error.Errorf "unable to process with nil client" []), world := w }
  | some client =>
  match req with
  | none =>
    { res := { Error := some (rfcerrors.ServerError "") },
      err := some (error.Errorf "unable to process with nil request" []), world := w }
  | some _ =>
  match grant with
  | none =>
    { res := { Error := some (rfcerrors.ServerError "") },
      err := some (error.Errorf "unable to process with nil grant" []), world := w }
  | some grant =>
  if !contains client.GrantTypes grantTypeAuthorizationCode then
    { res := { Error := some (rfcerrors.UnsupportedGrantType "") },
      err := some (error.Errorf "client doesn't support 'authorization_code' as grant type" []),
      world := w }
  else if grant.Code == "" || grant.CodeVerifier == "" || grant.RedirectUri == "" then
    { res := { Error := some (rfcerrors.InvalidGrant "") },
      err := some (error.Errorf
        "invalid authorization request: code, code_verifier and redirect_uri are mandatory" []),
      world := w }
  else
    match s.authorizationRequests_GetByCode grant.Code w with
    | (Except.error err, w1) =>
      { res := { Error := some (if err != error.ErrNotFound then rfcerrors.ServerError ""
                                else rfcerrors.InvalidGrant "") },
        err := some (error.ErrorfW
          "unable to retrieve authorization request from code '%s': %w" [grant.Code] err),
        world := w1 }
    | (Except.ok ar, w1) =>
      if ar.RedirectUri != grant.RedirectUri then
        { res := { Error := some (rfcerrors.InvalidGrant ar.State) },
          err := some (error.Errorf
            "invalid authorization request: request_uri from request '%s' and token '%s' must be identic"
            [ar.RedirectUri, grant.RedirectUri]),
          world := w1 }
      else if !contains client.RedirectUris grant.RedirectUri then
        { res := { Error := some (rfcerrors.InvalidGrant ar.State) },
          err := some (error.Errorf
            "invalid authorization request: request_uri from request '%s' and client '%s' must be validated"
            (grant.RedirectUri :: client.RedirectUris)),
          world := w1 }
      else checkPKCE contains s grant ar w1

/-! ## Call counting -/

/-- What a counting stub has seen: the codes looked up, oldest first, and the number of
generator calls. -/
structure Calls where
  lookups : List String := []
  generated : Nat := 0
deriving DecidableEq, Repr

/-- Wraps the collaborators so that every call is recorded beside the world. -/
def counting {σ : Type} (s : service σ) : service (σ × Calls) where
  authorizationRequests_GetByCode code w :=
    ((s.authorizationRequests_GetByCode code w.1).1,
     ((s.authorizationRequests_GetByCode code w.1).2,
      { w.2 with lookups := w.2.lookups ++ [code] }))
  accessTokenGenerator_Generate w :=
    ((s.accessTokenGenerator_Generate w.1).1,
     ((s.accessTokenGenerator_Generate w.1).2, { w.2 with generated := w.2.generated + 1 }))

/-! ## Stub collaborators -/

/-- World of the stub collaborators: the live codes of a single-use store, each resolving to a
request or to a storage failure, and the number of generator calls made so far. -/
structure World where
  grants : List (String × Except error AuthorizationRequest)
  minted : Nat
deriving Repr

/-- The token the stub generator hands out on its n-th call. -/
def tokenOf (n : Nat) : String :=
  String.mk ('t' :: 'o' :: 'k' :: '-' :: Nat.toDigits 10 n)

/-- A single-use store (a code that resolved is consumed, an unknown code is not found) and a
generator that fails exactly on the calls listed in failAt. -/
def stub (failAt : List Nat) : service World where
  authorizationRequests_GetByCode code w :=
    match w.grants.lookup code with
    | none => (Except.error error.ErrNotFound, w)
    | some (Except.error e) => (Except.error e, w)
    | some (Except.ok ar) =>
      (Except.ok ar, { w with grants := w.grants.filter (fun p => p.1 != code) })
  accessTokenGenerator_Generate w :=
    if failAt.contains w.minted then
      (Except.error (error.other "generator failure"), { w with minted := w.minted + 1 })
    else (Except.ok (tokenOf w.minted), { w with minted := w.minted + 1 })

/-- The request of the PKCE example: its challenge is the S256 transform of "verifier-xyz". -/
def exampleRequest (scope : String) : AuthorizationRequest :=
  { Scope := scope, State := "af0ifjsldkj", RedirectUri := "https://rp.example/cb",
    CodeChallenge := "rxPiyZz8P240xCXTZCn7w9huUtn-Efu70HAeOJkMu_I",
    CodeChallengeMethod := "S256" }

def exampleClient : Client :=
  { GrantTypes := ["authorization_code", "refresh_token"],
    RedirectUris := ["https://rp.example/cb"] }

def exampleWorld (scope : String) : World :=
  { grants := [("abc123", Except.ok (exampleRequest scope))], minted := 0 }

def exampleGrant (verifier : String) : GrantAuthorizationCode :=
  { Code := "abc123", CodeVerifier := verifier, RedirectUri := "https://rp.example/cb" }

def exampleToken (verifier : String) : TokenRequest :=
  { Grant := some (TokenRequestGrant.AuthorizationCode (some (exampleGrant verifier))) }

/-- A client registered for refresh_token only. -/
def refreshOnlyClient : Client :=
  { GrantTypes := ["refresh_token"], RedirectUris := ["https://rp.example/cb"] }

/-- A token request whose authorization_code payload has three empty fields. -/
def emptyToken : TokenRequest :=
  { Grant := some (TokenRequestGrant.AuthorizationCode (some ⟨"", "", ""⟩)) }

/-- A client that declares the grant and has registered another redirect URI. -/
def otherUriClient : Client :=
  { GrantTypes := ["authorization_code"], RedirectUris := ["https://rp.example/other"] }

/-- A request whose method is "plain" and whose challenge is the verifier itself. -/
def plainRequest : AuthorizationRequest :=
  { Scope := "openid", State := "af0ifjsldkj", RedirectUri := "https://rp.example/cb",
    CodeChallenge := "verifier-xyz", CodeChallengeMethod := "plain" }

/-- A store whose only code fails with a storage error other than not-found. -/
def brokenWorld : World :=
  { grants := [("abc123", Except.error (error.other "context deadline exceeded"))],
    minted := 0 }

/-- A token request that carries a sibling grant, hence no authorization_code payload. -/
def siblingToken : TokenRequest :=
  { Grant := some (TokenRequestGrant.sibling "client_credentials") }

/-- A token request whose payload lacks the code only. -/
def noCodeToken : TokenRequest :=
  { Grant := some (TokenRequestGrant.AuthorizationCode
      (some ⟨"", "verifier-xyz", "https://rp.example/cb"⟩)) }

/-! ## Notions of the specification -/

/-- Lower-case code of a character, ASCII letters only. -/
def lowerASCII (c : Char) : Nat :=
  if 65 ≤ c.toNat ∧ c.toNat ≤ 90 then c.toNat + 32 else c.toNat

/-- Case-insensitive comparison of two tokens, over ASCII letters. -/
def equalFoldASCII (a b : String) : Bool :=
  a.data.map lowerASCII == b.data.map lowerASCII

/-- The authorization request that steps 1 to 4 of the handler resolve, when all four pass:
client and payload present, grant declared, the three fields present, the code found. -/
def resolvedRequest {σ : Type} (contains : StringArray → String → Bool) (s : service σ)
    (client : Option Client) (req : Option TokenRequest) (w : σ) :
    Option AuthorizationRequest :=
  match client, TokenRequest.GetAuthorizationCode req with
  | some client, some grant =>
    if contains client.GrantTypes grantTypeAuthorizationCode && grant.Code != ""
        && grant.CodeVerifier != "" && grant.RedirectUri != "" then
      match (s.authorizationRequests_GetByCode grant.Code w).1 with
      | Except.ok ar => some ar
      | Except.error _ => none
    else none
  | _, _ => none

/-- A text made of tokens, each preceded by a run of separators, and a closing run. -/
def whitespaceDelimited : List (List Char × String) → List Char → List Char
  | [], tail => tail
  | p :: ps, tail => p.1 ++ (p.2.data ++ whitespaceDelimited ps tail)

/-- The pieces delimit tokens by white space: separators and the closing run are white space,
tokens are non-empty and free of white space, and every separator but the first is non-empty. -/
structure Delimited (pieces : List (List Char × String)) (tail : List Char) : Prop where
  sep_space : ∀ p ∈ pieces, ∀ c ∈ p.1, isSpace c = true
  token : ∀ p ∈ pieces, p.2.data ≠ [] ∧ ∀ c ∈ p.2.data, isSpace c = false
  gap : ∀ p ∈ pieces.tail, p.1 ≠ []
  tail_space : ∀ c ∈ tail, isSpace c = true

/-! ## Shared lemmas -/

theorem computedVerifier_example :
    computedVerifier "verifier-xyz" = "rxPiyZz8P240xCXTZCn7w9huUtn-Efu70HAeOJkMu_I" := by
  decide

theorem computedVerifier_wrong :
    computedVerifier "wrong" = "iBCtWB5Z8rw5KLJhcHpxMI9-E56wSCA2bcTVwY2YAiU" := by
  decide

/-- The counting wrapper answers a lookup as the wrapped store does and logs the code. -/
theorem counting_GetByCode {σ : Type} (s : service σ) (code : String) (w : σ) (c : Calls) :
    (counting s).authorizationRequests_GetByCode code (w, c) =
      ((s.authorizationRequests_GetByCode code w).1,
       ((s.authorizationRequests_GetByCode code w).2,
        { c with lookups := c.lookups ++ [code] })) := rfl

/-- The counting wrapper generates as the wrapped generator does and counts the call. -/
theorem counting_Generate {σ : Type} (s : service σ) (w : σ) (c : Calls) :
    (counting s).accessTokenGenerator_Generate (w, c) =
      ((s.accessTokenGenerator_Generate w).1,
       ((s.accessTokenGenerator_Generate w).2, { c with generated := c.generated + 1 })) := rfl

/-- A request with an authorization_code payload is not nil. -/
theorem GetAuthorizationCode_some {req : Option TokenRequest} {g : GrantAuthorizationCode}
    (h : TokenRequest.GetAuthorizationCode req = some g) : ∃ r, req = some r := by
  cases req with
  | none => simp [TokenRequest.GetAuthorizationCode] at h
  | some r => exact ⟨r, rfl⟩

/-- Steps 1 to 3 of the handler pass: from there on it is the lookup that decides. -/
theorem authorizationCode_lookup {σ : Type} (contains : StringArray → String → Bool)
    (s : service σ) (client : Client) (req : TokenRequest) (g : GrantAuthorizationCode) (w : σ)
    (hreq : TokenRequest.GetAuthorizationCode (some req) = some g)
    (hgt : contains client.GrantTypes grantTypeAuthorizationCode = true)
    (hcode : g.Code ≠ "") (hver : g.CodeVerifier ≠ "") (huri : g.RedirectUri ≠ "") :
    authorizationCode contains s (some client) (some req) w =
      match s.authorizationRequests_GetByCode g.Code w with
      | (Except.error err, w1) =>
        { res := { Error := some (if err != error.ErrNotFound then rfcerrors.ServerError ""
                                  else rfcerrors.InvalidGrant "") },
          err := some (error.ErrorfW
            "unable to retrieve authorization request from code '%s': %w" [g.Code] err),
          world := w1 }
      | (Except.ok ar, w1) =>
        if ar.RedirectUri != g.RedirectUri then
          { res := { Error := some (rfcerrors.InvalidGrant ar.State) },
            err := some (error.Errorf
              "invalid authorization request: request_uri from request '%s' and token '%s' must be identic"
              [ar.RedirectUri, g.RedirectUri]),
            world := w1 }
        else if !contains client.RedirectUris g.RedirectUri then
          { res := { Error := some (rfcerrors.InvalidGrant ar.State) },
            err := some (error.Errorf
              "invalid authorization request: request_uri from request '%s' and client '%s' must be validated"
              (g.RedirectUri :: client.RedirectUris)),
            world := w1 }
        else checkPKCE contains s g ar w1 := by
  unfold authorizationCode
  simp only [hreq, hgt, Bool.not_true, Bool.false_eq_true, if_false]
  have h1 : (g.Code == "") = false := by simpa using hcode
  have h2 : (g.CodeVerifier == "") = false := by simpa using hver
  have h3 : (g.RedirectUri == "") = false := by simpa using huri
  simp only [h1, h2, h3, Bool.or_self, Bool.false_eq_true, if_false]

/-- Steps 1 to 6 of the handler pass: what is left is the issuance of step 7. -/
theorem authorizationCode_issue {σ : Type} (contains : StringArray → String → Bool)
    (s : service σ) (client : Client) (req : TokenRequest) (g : GrantAuthorizationCode)
    (ar : AuthorizationRequest) (w w1 : σ)
    (hreq : TokenRequest.GetAuthorizationCode (some req) = some g)
    (hgt : contains client.GrantTypes grantTypeAuthorizationCode = true)
    (hcode : g.Code ≠ "") (hver : g.CodeVerifier ≠ "") (huri : g.RedirectUri ≠ "")
    (hstore : s.authorizationRequests_GetByCode g.Code w = (Except.ok ar, w1))
    (hredir : ar.RedirectUri = g.RedirectUri)
    (hmem : contains client.RedirectUris g.RedirectUri = true)
    (hmeth : ar.CodeChallengeMethod = "S256" ∨ ar.CodeChallengeMethod = "s256")
    (hch : computedVerifier g.CodeVerifier = ar.CodeChallenge) :
    authorizationCode contains s (some client) (some req) w = issueTokens contains s ar w1 := by
  rw [authorizationCode_lookup contains s client req g w hreq hgt hcode hver huri, hstore]
  have hm : (ar.CodeChallengeMethod == "S256" || ar.CodeChallengeMethod == "s256") = true := by
    rcases hmeth with h | h <;> simp [h]
  simp [hredir, hmem, checkPKCE, hm, hch]

/-- The lookup of the counting wrapper, from the lookup of the wrapped store. -/
theorem counting_lookup_eq {σ : Type} (s : service σ) (code : String) (w w1 : σ) (c : Calls)
    (r : Except error AuthorizationRequest)
    (h : s.authorizationRequests_GetByCode code w = (r, w1)) :
    (counting s).authorizationRequests_GetByCode code (w, c) =
      (r, (w1, { c with lookups := c.lookups ++ [code] })) := by
  rw [counting_GetByCode, h]

/-- Without "openid" in the scope, issuance returns the empty response and calls nothing. -/
theorem issueTokens_without_openid {σ : Type} (contains : StringArray → String → Bool)
    (s : service σ) (ar : AuthorizationRequest) (w : σ)
    (h : contains (Fields ar.Scope) "openid" = false) :
    issueTokens contains s ar w = { res := {}, err := none, world := w } := by
  simp [issueTokens, h]

/-- Steps 1 to 5 of the handler pass: what is left is the PKCE switch. -/
theorem authorizationCode_pkce {σ : Type} (contains : StringArray → String → Bool)
    (s : service σ) (client : Client) (req : TokenRequest) (g : GrantAuthorizationCode)
    (ar : AuthorizationRequest) (w w1 : σ)
    (hreq : TokenRequest.GetAuthorizationCode (some req) = some g)
    (hgt : contains client.GrantTypes grantTypeAuthorizationCode = true)
    (hcode : g.Code ≠ "") (hver : g.CodeVerifier ≠ "") (huri : g.RedirectUri ≠ "")
    (hstore : s.authorizationRequests_GetByCode g.Code w = (Except.ok ar, w1))
    (hredir : ar.RedirectUri = g.RedirectUri)
    (hmem : contains client.RedirectUris g.RedirectUri = true) :
    authorizationCode contains s (some client) (some req) w = checkPKCE contains s g ar w1 := by
  rw [authorizationCode_lookup contains s client req g w hreq hgt hcode hver huri, hstore]
  simp [hredir, hmem]

theorem char_of_toNat (c : Char) (n : Nat) (h : c.toNat = n) : c = Char.ofNat n := by
  rw [← h, Char.ofNat_toNat]

theorem lowerASCII_eq_s (c : Char) (h : lowerASCII c = 115) : c = 'S' ∨ c = 's' := by
  unfold lowerASCII at h
  split at h
  · left; exact char_of_toNat c 83 (by omega)
  · right; exact char_of_toNat c 115 h

theorem lowerASCII_eq_digit (c : Char) (n : Nat) (hn : n < 65) (h : lowerASCII c = n) :
    c = Char.ofNat n := by
  unfold lowerASCII at h
  split at h
  · omega
  · exact char_of_toNat c n h

/-- The tokens equal to "S256" up to ASCII case are the two labels of the switch. -/
theorem equalFoldASCII_S256 (m : String) :
    equalFoldASCII m "S256" = true ↔ m = "S256" ∨ m = "s256" := by
  constructor
  · intro h
    obtain ⟨l⟩ := m
    have h1 : l.map lowerASCII = [115, 50, 53, 54] := by
      simpa [equalFoldASCII] using h
    rcases l with _ | ⟨c1, _ | ⟨c2, _ | ⟨c3, _ | ⟨c4, _ | ⟨c5, t⟩⟩⟩⟩⟩ <;>
      simp only [List.map, List.cons.injEq, and_true, reduceCtorEq, and_false] at h1
    obtain ⟨k1, k2, k3, k4⟩ := h1
    have e2 := lowerASCII_eq_digit c2 50 (by omega) k2
    have e3 := lowerASCII_eq_digit c3 53 (by omega) k3
    have e4 := lowerASCII_eq_digit c4 54 (by omega) k4
    rcases lowerASCII_eq_s c1 k1 with e1 | e1
    · left; subst e1 e2 e3 e4; rfl
    · right; subst e1 e2 e3 e4; rfl
  · rintro (h | h) <;> subst h <;> decide

/-- The condition of the PKCE switch, in terms of the case-insensitive comparison. -/
theorem switch_eq_equalFold (m : String) :
    (m == "S256" || m == "s256") = equalFoldASCII m "S256" := by
  rw [Bool.eq_iff_iff, equalFoldASCII_S256]
  simp

/-- A fully validated exchange with a generator that never fails returns no error and no
diagnostic. -/
theorem authorizationCode_succeeds {σ : Type} (contains : StringArray → String → Bool)
    (s : service σ) (client : Client) (req : TokenRequest) (g : GrantAuthorizationCode)
    (ar : AuthorizationRequest) (w w1 : σ)
    (hreq : TokenRequest.GetAuthorizationCode (some req) = some g)
    (hgt : contains client.GrantTypes grantTypeAuthorizationCode = true)
    (hcode : g.Code ≠ "") (hver : g.CodeVerifier ≠ "") (huri : g.RedirectUri ≠ "")
    (hstore : s.authorizationRequests_GetByCode g.Code w = (Except.ok ar, w1))
    (hredir : ar.RedirectUri = g.RedirectUri)
    (hmem : contains client.RedirectUris g.RedirectUri = true)
    (hmeth : ar.CodeChallengeMethod = "S256" ∨ ar.CodeChallengeMethod = "s256")
    (hch : computedVerifier g.CodeVerifier = ar.CodeChallenge)
    (hgen : ∀ v, ∃ t, (s.accessTokenGenerator_Generate v).1 = Except.ok t) :
    (authorizationCode contains s (some client) (some req) w).res.Error = none ∧
    (authorizationCode contains s (some client) (some req) w).err = none := by
  rw [authorizationCode_issue contains s client req g ar w w1 hreq hgt hcode hver huri hstore
      hredir hmem hmeth hch]
  obtain ⟨t1, ht1⟩ := hgen w1
  obtain ⟨t2, ht2⟩ := hgen (s.accessTokenGenerator_Generate w1).2
  rcases h1 : s.accessTokenGenerator_Generate w1 with ⟨r1, v1⟩
  rw [h1] at ht1 ht2
  simp only at ht1 ht2
  subst ht1
  rcases h2 : s.accessTokenGenerator_Generate v1 with ⟨r2, v2⟩
  rw [h2] at ht2
  simp only at ht2
  subst ht2
  by_cases ho : contains (Fields ar.Scope) "openid" = true
  · by_cases hf : contains (Fields ar.Scope) "offline_access" = true
    · simp [issueTokens, ho, hf, h1, h2]
    · simp [issueTokens, ho, hf, h1]
  · simp [issueTokens, ho]

/-- Issuance either fails with server_error, the given state and a diagnostic, leaving no
token holder, or returns neither error nor diagnostic. -/
theorem issueTokens_shape {σ : Type} (contains : StringArray → String → Bool) (s : service σ)
    (ar : AuthorizationRequest) (w : σ) :
    ((issueTokens contains s ar w).res
        = { Error := some { Err := "server_error", State := ar.State }, Openid := none } ∧
      ∃ d, (issueTokens contains s ar w).err = some d) ∨
    ((issueTokens contains s ar w).res.Error = none ∧ (issueTokens contains s ar w).err = none) := by
  by_cases ho : contains (Fields ar.Scope) "openid" = true
  · rcases h1 : s.accessTokenGenerator_Generate w with ⟨r1, v1⟩
    cases r1 with
    | error e => left; simp [issueTokens, ho, h1, rfcerrors.ServerError]
    | ok t =>
      by_cases hf : contains (Fields ar.Scope) "offline_access" = true
      · rcases h2 : s.accessTokenGenerator_Generate v1 with ⟨r2, v2⟩
        cases r2 with
        | error e => left; simp [issueTokens, ho, hf, h1, h2, rfcerrors.ServerError]
        | ok t2 => right; simp [issueTokens, ho, hf, h1, h2]
      · right; simp [issueTokens, ho, hf, h1]
  · right; simp [issueTokens, ho]

/-- Shape of every outcome: either an error response without token holder, paired with a
diagnostic, whose state is that of the resolved request (empty when none was resolved), or a
response without error and without diagnostic. -/
theorem authorizationCode_shape {σ : Type} (contains : StringArray → String → Bool)
    (s : service σ) (client : Option Client) (req : Option TokenRequest) (w : σ) :
    (∃ code d, (authorizationCode contains s client req w).res
        = { Error := some { Err := code,
                            State := ((resolvedRequest contains s client req w).map
                              AuthorizationRequest.State).getD "" },
            Openid := none } ∧
      (authorizationCode contains s client req w).err = some d) ∨
    ((authorizationCode contains s client req w).res.Error = none ∧
      (authorizationCode contains s client req w).err = none) := by
  cases client with
  | none => left; simp [authorizationCode, resolvedRequest, rfcerrors.ServerError]
  | some client =>
  cases req with
  | none =>
    left
    simp [authorizationCode, resolvedRequest, TokenRequest.GetAuthorizationCode,
      rfcerrors.ServerError]
  | some req =>
  rcases hg : TokenRequest.GetAuthorizationCode (some req) with _ | g
  · left; simp [authorizationCode, resolvedRequest, hg, rfcerrors.ServerError]
  by_cases hgt : contains client.GrantTypes grantTypeAuthorizationCode = true
  swap
  · left; simp [authorizationCode, resolvedRequest, hg, hgt, rfcerrors.UnsupportedGrantType]
  by_cases hcode : g.Code = ""
  · left; simp [authorizationCode, resolvedRequest, hg, hgt, hcode, rfcerrors.InvalidGrant]
  by_cases hver : g.CodeVerifier = ""
  · left; simp [authorizationCode, resolvedRequest, hg, hgt, hver, rfcerrors.InvalidGrant]
  by_cases huri : g.RedirectUri = ""
  · left; simp [authorizationCode, resolvedRequest, hg, hgt, huri, rfcerrors.InvalidGrant]
  rw [authorizationCode_lookup contains s client req g w hg hgt hcode hver huri]
  rcases hs : s.authorizationRequests_GetByCode g.Code w with ⟨r, w1⟩
  cases r with
  | error e =>
    left
    by_cases he : e = error.ErrNotFound
    · simp [resolvedRequest, hg, hgt, hcode, hver, huri, hs, he, rfcerrors.InvalidGrant]
    · simp [resolvedRequest, hg, hgt, hcode, hver, huri, hs, he, rfcerrors.ServerError]
  | ok ar =>
    have hres : resolvedRequest contains s (some client) (some req) w = some ar := by
      simp [resolvedRequest, hg, hgt, hcode, hver, huri, hs]
    rw [hres]
    by_cases hredir : ar.RedirectUri = g.RedirectUri
    swap
    · left; simp [hredir, rfcerrors.InvalidGrant]
    by_cases hmem : contains client.RedirectUris g.RedirectUri = true
    swap
    · left; simp [hredir, hmem, rfcerrors.InvalidGrant]
    by_cases hm : (ar.CodeChallengeMethod == "S256" || ar.CodeChallengeMethod == "s256") = true
    swap
    · left; simp [hredir, hmem, checkPKCE, hm, rfcerrors.InvalidGrant]
    by_cases hd : computedVerifier g.CodeVerifier = ar.CodeChallenge
    swap
    · left; simp [hredir, hmem, checkPKCE, hm, hd, rfcerrors.InvalidGrant]
    have hrun : (if (ar.RedirectUri != g.RedirectUri) = true then
          ({ res := { Error := some (rfcerrors.InvalidGrant ar.State) },
             err := some (error.Errorf
              "invalid authorization request: request_uri from request '%s' and token '%s' must be identic"
              [ar.RedirectUri, g.RedirectUri]),
             world := w1 } : Outcome σ)
        else if (!contains client.RedirectUris g.RedirectUri) = true then
          { res := { Error := some (rfcerrors.InvalidGrant ar.State) },
            err := some (error.Errorf
              "invalid authorization request: request_uri from request '%s' and client '%s' must be validated"
              (g.RedirectUri :: client.RedirectUris)),
            world := w1 }
        else checkPKCE contains s g ar w1) = issueTokens contains s ar w1 := by
      simp [hredir, hmem, checkPKCE, hm, hd]
    simp only [hrun]
    rcases issueTokens_shape contains s ar w1 with ⟨h1, d, h2⟩ | ⟨h1, h2⟩
    · left; exact ⟨"server_error", d, by simpa using h1, h2⟩
    · right; exact ⟨h1, h2⟩

theorem fieldsFrom_skip (ws rest : List Char) (h : ∀ c ∈ ws, isSpace c = true) :
    fieldsFrom [] (ws ++ rest) = fieldsFrom [] rest := by
  induction ws with
  | nil => rfl
  | cons c ws ih =>
    have hc : isSpace c = true := h c (List.mem_cons_self _ _)
    have ih2 := ih (fun d hd => h d (List.mem_cons_of_mem _ hd))
    simp [fieldsFrom, hc, ih2]

theorem fieldsFrom_token (t rest : List Char) (h : ∀ c ∈ t, isSpace c = false)
    (cur : List Char) : fieldsFrom cur (t ++ rest) = fieldsFrom (t.reverse ++ cur) rest := by
  induction t generalizing cur with
  | nil => rfl
  | cons c t ih =>
    have hc : isSpace c = false := h c (List.mem_cons_self _ _)
    have ih2 := ih (fun d hd => h d (List.mem_cons_of_mem _ hd)) (c :: cur)
    simp [fieldsFrom, hc, ih2]

theorem fieldsFrom_flush (cur X : List Char) (hcur : cur ≠ [])
    (hX : X = [] ∨ ∃ c Y, X = c :: Y ∧ isSpace c = true) :
    fieldsFrom cur X = String.mk cur.reverse :: fieldsFrom [] X := by
  rcases hX with h | ⟨c, Y, h, hc⟩
  · subst h
    simp [fieldsFrom, hcur]
  · subst h
    simp [fieldsFrom, hc, hcur]

theorem whitespaceDelimited_head (ps : List (List Char × String)) (tail : List Char)
    (hgap : ∀ p ∈ ps, p.1 ≠ []) (hsep : ∀ p ∈ ps, ∀ c ∈ p.1, isSpace c = true)
    (htail : ∀ c ∈ tail, isSpace c = true) :
    whitespaceDelimited ps tail = [] ∨
      ∃ c Y, whitespaceDelimited ps tail = c :: Y ∧ isSpace c = true := by
  cases ps with
  | nil =>
    cases tail with
    | nil => left; rfl
    | cons c Y => right; exact ⟨c, Y, rfl, htail c (List.mem_cons_self _ _)⟩
  | cons q qs =>
    right
    have hq := hgap q (List.mem_cons_self _ _)
    rcases hsp : q.1 with _ | ⟨c, sep⟩
    · exact absurd hsp hq
    · refine ⟨c, sep ++ (q.2.data ++ whitespaceDelimited qs tail), ?_, ?_⟩
      · simp [whitespaceDelimited, hsp]
      · exact hsep q (List.mem_cons_self _ _) c (by rw [hsp]; exact List.mem_cons_self _ _)

theorem fieldsFrom_whitespaceDelimited (pieces : List (List Char × String)) (tail : List Char)
    (h : Delimited pieces tail) :
    fieldsFrom [] (whitespaceDelimited pieces tail) = pieces.map Prod.snd := by
  obtain ⟨hsep, htok, hgap, htail⟩ := h
  induction pieces with
  | nil =>
    have := fieldsFrom_skip tail [] htail
    simpa [whitespaceDelimited, fieldsFrom] using this
  | cons p ps ih =>
    have hps : ∀ q ∈ ps, q.1 ≠ [] := fun q hq => hgap q (by simpa using hq)
    have ih2 := ih (fun q hq => hsep q (List.mem_cons_of_mem _ hq))
      (fun q hq => htok q (List.mem_cons_of_mem _ hq))
      (fun q hq => hps q (List.mem_of_mem_tail hq))
    have hp := htok p (List.mem_cons_self _ _)
    have hne : p.2.data.reverse ++ [] ≠ [] := by simpa using hp.1
    rw [whitespaceDelimited, fieldsFrom_skip _ _ (hsep p (List.mem_cons_self _ _)),
      fieldsFrom_token _ _ hp.2,
      fieldsFrom_flush _ _ hne (whitespaceDelimited_head ps tail hps
        (fun q hq => hsep q (List.mem_cons_of_mem _ hq)) htail), ih2]
    simp

/-- On a white-space delimited text, Fields returns the tokens. -/
theorem Fields_whitespaceDelimited (pieces : List (List Char × String)) (tail : List Char)
    (h : Delimited pieces tail) :
    Fields (String.mk (whitespaceDelimited pieces tail)) = pieces.map Prod.snd :=
  fieldsFrom_whitespaceDelimited pieces tail h

/-- C1. A valid authorization-code exchange (client declares the grant, the three fields are
present, the code resolves, both redirect-URI checks hold, the method is S256 and the challenge
is the S256 transform of the verifier) with a generator that never fails returns no diagnostic
and no error; when the split scope contains "openid" the response holds a token holder whose
access token is the first generator output, of type "Bearer" and lifetime 3600. The split is
that of the handler, and it is the list of tokens of every white-space delimited scope. -/
theorem authorizationCode_valid_exchange {σ : Type} (contains : StringArray → String → Bool)
    (s : service σ) (client : Client) (req : TokenRequest) (g : GrantAuthorizationCode)
    (ar : AuthorizationRequest) (w w1 : σ)
    (hreq : TokenRequest.GetAuthorizationCode (some req) = some g)
    (hgt : contains client.GrantTypes "authorization_code" = true)
    (hcode : g.Code ≠ "") (hver : g.CodeVerifier ≠ "") (huri : g.RedirectUri ≠ "")
    (hstore : s.authorizationRequests_GetByCode g.Code w = (Except.ok ar, w1))
    (hredir : ar.RedirectUri = g.RedirectUri)
    (hmem : contains client.RedirectUris ar.RedirectUri = true)
    (hmeth : ar.CodeChallengeMethod = "S256")
    (hch : ar.CodeChallenge = computedVerifier g.CodeVerifier)
    (hgen : ∀ v, ∃ t, (s.accessTokenGenerator_Generate v).1 = Except.ok t) :
    (authorizationCode contains s (some client) (some req) w).err = none ∧
    (authorizationCode contains s (some client) (some req) w).res.Error = none ∧
    (contains (Fields ar.Scope) "openid" = true →
      ∃ o, (authorizationCode contains s (some client) (some req) w).res.Openid = some o ∧
        (s.accessTokenGenerator_Generate w1).1 = Except.ok o.AccessToken ∧
        o.TokenType = "Bearer" ∧ o.ExpiresIn = 3600) ∧
    (∀ pieces tail, Delimited pieces tail →
      ar.Scope = String.mk (whitespaceDelimited pieces tail) →
      contains (pieces.map Prod.snd) "openid" = true →
      ∃ o, (authorizationCode contains s (some client) (some req) w).res.Openid = some o ∧
        (s.accessTokenGenerator_Generate w1).1 = Except.ok o.AccessToken ∧
        o.TokenType = "Bearer" ∧ o.ExpiresIn = 3600) := by
  rw [authorizationCode_issue contains s client req g ar w w1 hreq hgt hcode hver huri hstore
    hredir (hredir ▸ hmem) (Or.inl hmeth) hch.symm]
  obtain ⟨t1, ht1⟩ := hgen w1
  obtain ⟨t2, ht2⟩ := hgen (s.accessTokenGenerator_Generate w1).2
  rcases h1 : s.accessTokenGenerator_Generate w1 with ⟨r1, v1⟩
  rw [h1] at ht1 ht2
  simp only at ht1 ht2
  subst ht1
  rcases h2 : s.accessTokenGenerator_Generate v1 with ⟨r2, v2⟩
  rw [h2] at ht2
  simp only at ht2
  subst ht2
  have key : contains (Fields ar.Scope) "openid" = true →
      ∃ o, (issueTokens contains s ar w1).res.Openid = some o ∧
        Except.ok t1 = (Except.ok o.AccessToken : Except error String) ∧
        o.TokenType = "Bearer" ∧ o.ExpiresIn = 3600 := by
    intro ho
    by_cases hf : contains (Fields ar.Scope) "offline_access" = true
    · simp [issueTokens, ho, hf, h1, h2]
    · simp [issueTokens, ho, hf, h1]
  refine ⟨?_, ?_, key, fun pieces tail hd hscope hopen => key ?_⟩
  · by_cases ho : contains (Fields ar.Scope) "openid" = true
    · by_cases hf : contains (Fields ar.Scope) "offline_access" = true
      · simp [issueTokens, ho, hf, h1, h2]
      · simp [issueTokens, ho, hf, h1]
    · simp [issueTokens, ho]
  · by_cases ho : contains (Fields ar.Scope) "openid" = true
    · by_cases hf : contains (Fields ar.Scope) "offline_access" = true
      · simp [issueTokens, ho, hf, h1, h2]
      · simp [issueTokens, ho, hf, h1]
    · simp [issueTokens, ho]
  · rw [hscope, Fields_whitespaceDelimited pieces tail hd]
    exact hopen

/-- C1 at the PKCE example with the scope "openid profile", verifier "verifier-xyz" and a
generator that never fails: the scope splits into "openid" and "profile", and the response
holds the first generator output "tok-0" as a "Bearer" token of lifetime 3600. -/
theorem authorizationCode_valid_exchange_witness :
    Fields "openid profile" = ["openid", "profile"] ∧
    (authorizationCode StringArray.Contains (stub []) (some exampleClient)
        (some (exampleToken "verifier-xyz")) (exampleWorld "openid profile")).res
      = { Error := none,
          Openid := some { AccessToken := "tok-0", TokenType := "Bearer", ExpiresIn := 3600,
                           RefreshToken := none } } ∧
    (authorizationCode StringArray.Contains (stub []) (some exampleClient)
        (some (exampleToken "verifier-xyz")) (exampleWorld "openid profile")).err = none ∧
    (∃ o, (authorizationCode StringArray.Contains (stub []) (some exampleClient)
          (some (exampleToken "verifier-xyz")) (exampleWorld "openid profile")).res.Openid
          = some o ∧
        ((stub []).accessTokenGenerator_Generate { grants := [], minted := 0 }).1
          = Except.ok o.AccessToken ∧
        o.TokenType = "Bearer" ∧ o.ExpiresIn = 3600) ∧
    (∃ o, (authorizationCode StringArray.Contains (stub []) (some exampleClient)
          (some (exampleToken "verifier-xyz")) (exampleWorld "openid profile")).res.Openid
          = some o ∧
        ((stub []).accessTokenGenerator_Generate { grants := [], minted := 0 }).1
          = Except.ok o.AccessToken ∧
        o.TokenType = "Bearer" ∧ o.ExpiresIn = 3600) :=
  ⟨by decide, by decide,
   (authorizationCode_valid_exchange StringArray.Contains (stub []) exampleClient
    (exampleToken "verifier-xyz") (exampleGrant "verifier-xyz")
    (exampleRequest "openid profile") (exampleWorld "openid profile")
    { grants := [], minted := 0 }
    rfl (by decide) (by decide) (by decide) (by decide) rfl rfl (by decide) rfl
    computedVerifier_example.symm (fun v => by simp [stub])).1,
   (authorizationCode_valid_exchange StringArray.Contains (stub []) exampleClient
    (exampleToken "verifier-xyz") (exampleGrant "verifier-xyz")
    (exampleRequest "openid profile") (exampleWorld "openid profile")
    { grants := [], minted := 0 }
    rfl (by decide) (by decide) (by decide) (by decide) rfl rfl (by decide) rfl
    computedVerifier_example.symm (fun v => by simp [stub])).2.2.1 (by decide),
   (authorizationCode_valid_exchange StringArray.Contains (stub []) exampleClient
    (exampleToken "verifier-xyz") (exampleGrant "verifier-xyz")
    (exampleRequest "openid profile") (exampleWorld "openid profile")
    { grants := [], minted := 0 }
    rfl (by decide) (by decide) (by decide) (by decide) rfl rfl (by decide) rfl
    computedVerifier_example.symm (fun v => by simp [stub])).2.2.2
    [([], "openid"), ([' '], "profile")] []
    ⟨by decide, by decide, by decide, by decide⟩ (by decide) (by decide)⟩

/-- C2. Once the nil guard, the capability check, the field-presence check, the lookup and
both redirect-URI checks have passed, a verifier whose S256 transform differs from the stored
challenge gives the invalid_grant response with a diagnostic, and a counting generator sees no
call (the only recorded call is the lookup). -/
theorem authorizationCode_pkce_mismatch {σ : Type} (contains : StringArray → String → Bool)
    (s : service σ) (client : Client) (req : TokenRequest) (g : GrantAuthorizationCode)
    (ar : AuthorizationRequest) (w w1 : σ) (c : Calls)
    (hreq : TokenRequest.GetAuthorizationCode (some req) = some g)
    (hgt : contains client.GrantTypes "authorization_code" = true)
    (hcode : g.Code ≠ "") (hver : g.CodeVerifier ≠ "") (huri : g.RedirectUri ≠ "")
    (hstore : s.authorizationRequests_GetByCode g.Code w = (Except.ok ar, w1))
    (hredir : ar.RedirectUri = g.RedirectUri)
    (hmem : contains client.RedirectUris g.RedirectUri = true)
    (hne : computedVerifier g.CodeVerifier ≠ ar.CodeChallenge) :
    (authorizationCode contains s (some client) (some req) w).res
      = { Error := some (rfcerrors.InvalidGrant ar.State), Openid := none } ∧
    (rfcerrors.InvalidGrant ar.State).Err = "invalid_grant" ∧
    (authorizationCode contains s (some client) (some req) w).err ≠ none ∧
    (authorizationCode contains (counting s) (some client) (some req) (w, c)).world.2
      = { lookups := c.lookups ++ [g.Code], generated := c.generated } := by
  rw [authorizationCode_lookup contains s client req g w hreq hgt hcode hver huri, hstore,
    authorizationCode_lookup contains (counting s) client req g (w, c) hreq hgt hcode hver huri,
    counting_lookup_eq s g.Code w w1 c _ hstore]
  by_cases hm : (ar.CodeChallengeMethod == "S256" || ar.CodeChallengeMethod == "s256") = true
  · simp [hredir, hmem, checkPKCE, hm, hne, rfcerrors.InvalidGrant]
  · simp [hredir, hmem, checkPKCE, hm, rfcerrors.InvalidGrant]

/-- C2 at the PKCE example: the stored challenge is the S256 transform of "verifier-xyz"; with
that verifier the exchange passes PKCE and succeeds, with the verifier "wrong" it is
invalid_grant and the generator is not called. -/
theorem authorizationCode_pkce_mismatch_witness :
    (exampleRequest "openid").CodeChallenge = computedVerifier "verifier-xyz" ∧
    (authorizationCode StringArray.Contains (stub []) (some exampleClient)
        (some (exampleToken "verifier-xyz")) (exampleWorld "openid")).res
      = { Error := none,
          Openid := some { AccessToken := "tok-0", TokenType := "Bearer", ExpiresIn := 3600,
                           RefreshToken := none } } ∧
    computedVerifier "wrong" ≠ (exampleRequest "openid").CodeChallenge ∧
    ((authorizationCode StringArray.Contains (stub []) (some exampleClient)
        (some (exampleToken "wrong")) (exampleWorld "openid")).res
      = { Error := some (rfcerrors.InvalidGrant "af0ifjsldkj"), Openid := none } ∧
    (rfcerrors.InvalidGrant "af0ifjsldkj").Err = "invalid_grant" ∧
    (authorizationCode StringArray.Contains (stub []) (some exampleClient)
        (some (exampleToken "wrong")) (exampleWorld "openid")).err ≠ none ∧
    (authorizationCode StringArray.Contains (counting (stub [])) (some exampleClient)
        (some (exampleToken "wrong")) (exampleWorld "openid", { })).world.2
      = { lookups := ["abc123"], generated := 0 }) :=
  ⟨computedVerifier_example.symm, by decide, by decide,
   authorizationCode_pkce_mismatch StringArray.Contains (stub []) exampleClient
    (exampleToken "wrong") (exampleGrant "wrong") (exampleRequest "openid")
    (exampleWorld "openid") { grants := [], minted := 0 } { }
    rfl (by decide) (by decide) (by decide) (by decide) rfl rfl (by decide) (by decide)⟩

/-- C3. A client whose grant types do not contain "authorization_code" gets the
unsupported_grant_type response for every request with an authorization_code payload,
whatever its fields, and counting collaborators see no call at all: the world is untouched. -/
theorem authorizationCode_unsupported_grant_type {σ : Type}
    (contains : StringArray → String → Bool) (s : service σ) (client : Client)
    (req : TokenRequest) (g : GrantAuthorizationCode) (w : σ) (c : Calls)
    (hreq : TokenRequest.GetAuthorizationCode (some req) = some g)
    (hgt : contains client.GrantTypes "authorization_code" = false) :
    (authorizationCode contains s (some client) (some req) w).res
      = { Error := some (rfcerrors.UnsupportedGrantType ""), Openid := none } ∧
    (rfcerrors.UnsupportedGrantType "").Err = "unsupported_grant_type" ∧
    (authorizationCode contains (counting s) (some client) (some req) (w, c)).world = (w, c) := by
  have hgt2 : contains client.GrantTypes grantTypeAuthorizationCode = false := hgt
  simp [authorizationCode, hreq, hgt2, rfcerrors.UnsupportedGrantType]

/-- C3 at a client registered for refresh_token only, with a request whose three fields are
empty. -/
theorem authorizationCode_unsupported_grant_type_witness :
    (authorizationCode StringArray.Contains (stub []) (some refreshOnlyClient)
      (some emptyToken) (exampleWorld "openid")).res
      = { Error := some (rfcerrors.UnsupportedGrantType ""), Openid := none } ∧
    (rfcerrors.UnsupportedGrantType "").Err = "unsupported_grant_type" ∧
    (authorizationCode StringArray.Contains (counting (stub [])) (some refreshOnlyClient)
      (some emptyToken) (exampleWorld "openid", { })).world = (exampleWorld "openid", { }) :=
  authorizationCode_unsupported_grant_type StringArray.Contains (stub []) refreshOnlyClient
    emptyToken ⟨"", "", ""⟩ (exampleWorld "openid") { } rfl (by decide)

/-- C4. Once steps 1 to 4 have passed, each redirect-URI mismatch alone gives invalid_grant
with the resolved state: (a) the stored URI differs from the request URI, whatever the client
has registered; (b) the two agree and the client has not registered the value. In both the
counting generator sees no call. When both checks hold the handler goes on to the PKCE
switch. -/
theorem authorizationCode_redirect_uri {σ : Type} (contains : StringArray → String → Bool)
    (s : service σ) (client : Client) (req : TokenRequest) (g : GrantAuthorizationCode)
    (ar : AuthorizationRequest) (w w1 : σ) (c : Calls)
    (hreq : TokenRequest.GetAuthorizationCode (some req) = some g)
    (hgt : contains client.GrantTypes "authorization_code" = true)
    (hcode : g.Code ≠ "") (hver : g.CodeVerifier ≠ "") (huri : g.RedirectUri ≠ "")
    (hstore : s.authorizationRequests_GetByCode g.Code w = (Except.ok ar, w1)) :
    (ar.RedirectUri ≠ g.RedirectUri →
      authorizationCode contains s (some client) (some req) w
        = { res := { Error := some { Err := "invalid_grant", State := ar.State },
                     Openid := none },
            err := some (error.Errorf
              "invalid authorization request: request_uri from request '%s' and token '%s' must be identic"
              [ar.RedirectUri, g.RedirectUri]),
            world := w1 } ∧
      (authorizationCode contains (counting s) (some client) (some req) (w, c)).world.2
        = { lookups := c.lookups ++ [g.Code], generated := c.generated }) ∧
    (ar.RedirectUri = g.RedirectUri → contains client.RedirectUris g.RedirectUri = false →
      authorizationCode contains s (some client) (some req) w
        = { res := { Error := some { Err := "invalid_grant", State := ar.State },
                     Openid := none },
            err := some (error.Errorf
              "invalid authorization request: request_uri from request '%s' and client '%s' must be validated"
              (g.RedirectUri :: client.RedirectUris)),
            world := w1 } ∧
      (authorizationCode contains (counting s) (some client) (some req) (w, c)).world.2
        = { lookups := c.lookups ++ [g.Code], generated := c.generated }) ∧
    (ar.RedirectUri = g.RedirectUri → contains client.RedirectUris g.RedirectUri = true →
      authorizationCode contains s (some client) (some req) w
        = checkPKCE contains s g ar w1) := by
  rw [authorizationCode_lookup contains s client req g w hreq hgt hcode hver huri, hstore,
    authorizationCode_lookup contains (counting s) client req g (w, c) hreq hgt hcode hver huri,
    counting_lookup_eq s g.Code w w1 c _ hstore]
  refine ⟨fun hne => ?_, fun heq hnm => ?_, fun heq hm => ?_⟩
  · simp [hne, rfcerrors.InvalidGrant]
  · simp [heq, hnm, rfcerrors.InvalidGrant]
  · simp [heq, hm]

/-- C4 at the PKCE example, with a client that has registered another redirect URI: case (b)
applies. -/
theorem authorizationCode_redirect_uri_witness :
    (exampleRequest "openid").RedirectUri = (exampleGrant "verifier-xyz").RedirectUri ∧
    StringArray.Contains otherUriClient.RedirectUris (exampleGrant "verifier-xyz").RedirectUri
      = false ∧
    authorizationCode StringArray.Contains (stub []) (some otherUriClient)
        (some (exampleToken "verifier-xyz")) (exampleWorld "openid")
      = { res := { Error := some { Err := "invalid_grant", State := "af0ifjsldkj" },
                   Openid := none },
          err := some (error.Errorf
            "invalid authorization request: request_uri from request '%s' and client '%s' must be validated"
            ["https://rp.example/cb", "https://rp.example/other"]),
          world := { grants := [], minted := 0 } } ∧
    (authorizationCode StringArray.Contains (counting (stub [])) (some otherUriClient)
        (some (exampleToken "verifier-xyz")) (exampleWorld "openid", { })).world.2
      = { lookups := ["abc123"], generated := 0 } :=
  ⟨rfl, by decide,
   (authorizationCode_redirect_uri StringArray.Contains (stub []) otherUriClient
      (exampleToken "verifier-xyz") (exampleGrant "verifier-xyz") (exampleRequest "openid")
      (exampleWorld "openid") { grants := [], minted := 0 } { }
      rfl (by decide) (by decide) (by decide) (by decide) rfl).2.1 rfl (by decide)⟩

/-- C5. Scope policy of a fully validated exchange with a generator that never fails, the
scope set being the stored scope split on white space: no error; a token holder exactly when
the set contains "openid"; a refresh token exactly when it contains "openid" and
"offline_access", and then it is the second generator output; with "openid" alone the refresh
token is unset; without "openid" the response is empty, there is no diagnostic, and the
counting generator sees no call, whatever else the scope holds. The split is that of the
handler, and for every white-space delimited scope it is the list of its tokens, on which the
same policy is stated. -/
theorem authorizationCode_scope_policy {σ : Type} (contains : StringArray → String → Bool)
    (s : service σ) (client : Client) (req : TokenRequest) (g : GrantAuthorizationCode)
    (ar : AuthorizationRequest) (w w1 : σ) (c : Calls)
    (hreq : TokenRequest.GetAuthorizationCode (some req) = some g)
    (hgt : contains client.GrantTypes "authorization_code" = true)
    (hcode : g.Code ≠ "") (hver : g.CodeVerifier ≠ "") (huri : g.RedirectUri ≠ "")
    (hstore : s.authorizationRequests_GetByCode g.Code w = (Except.ok ar, w1))
    (hredir : ar.RedirectUri = g.RedirectUri)
    (hmem : contains client.RedirectUris g.RedirectUri = true)
    (hmeth : ar.CodeChallengeMethod = "S256" ∨ ar.CodeChallengeMethod = "s256")
    (hch : computedVerifier g.CodeVerifier = ar.CodeChallenge)
    (hgen : ∀ v, ∃ t, (s.accessTokenGenerator_Generate v).1 = Except.ok t) :
    (authorizationCode contains s (some client) (some req) w).res.Error = none ∧
    (authorizationCode contains s (some client) (some req) w).res.Openid.isSome
      = contains (Fields ar.Scope) "openid" ∧
    ((authorizationCode contains s (some client) (some req) w).res.Openid.bind
        OpenIDToken.RefreshToken).isSome
      = (contains (Fields ar.Scope) "openid" && contains (Fields ar.Scope) "offline_access") ∧
    (∀ rt, (authorizationCode contains s (some client) (some req) w).res.Openid.bind
        OpenIDToken.RefreshToken = some rt →
      (s.accessTokenGenerator_Generate (s.accessTokenGenerator_Generate w1).2).1
        = Except.ok rt) ∧
    (contains (Fields ar.Scope) "openid" = false →
      (authorizationCode contains s (some client) (some req) w).res
        = { Error := none, Openid := none } ∧
      (authorizationCode contains s (some client) (some req) w).err = none ∧
      (authorizationCode contains (counting s) (some client) (some req) (w, c)).world.2
        = { lookups := c.lookups ++ [g.Code], generated := c.generated }) ∧
    (∀ pieces tail, Delimited pieces tail →
      ar.Scope = String.mk (whitespaceDelimited pieces tail) →
      Fields ar.Scope = pieces.map Prod.snd ∧
      (contains (pieces.map Prod.snd) "openid" = true →
        ∃ o, (authorizationCode contains s (some client) (some req) w).res.Openid = some o ∧
          (s.accessTokenGenerator_Generate w1).1 = Except.ok o.AccessToken ∧
          o.TokenType = "Bearer" ∧ o.ExpiresIn = 3600 ∧
          (contains (pieces.map Prod.snd) "offline_access" = true →
            ∃ rt, o.RefreshToken = some rt ∧
              (s.accessTokenGenerator_Generate (s.accessTokenGenerator_Generate w1).2).1
                = Except.ok rt) ∧
          (contains (pieces.map Prod.snd) "offline_access" = false →
            o.RefreshToken = none)) ∧
      (contains (pieces.map Prod.snd) "openid" = false →
        (authorizationCode contains s (some client) (some req) w).res
          = { Error := none, Openid := none } ∧
        (authorizationCode contains (counting s) (some client) (some req) (w, c)).world.2
          = { lookups := c.lookups ++ [g.Code], generated := c.generated })) := by
  rw [authorizationCode_issue contains s client req g ar w w1 hreq hgt hcode hver huri hstore
      hredir hmem hmeth hch,
    authorizationCode_issue contains (counting s) client req g ar (w, c) _ hreq hgt hcode hver
      huri (counting_lookup_eq s g.Code w w1 c _ hstore) hredir hmem hmeth hch]
  obtain ⟨t1, ht1⟩ := hgen w1
  obtain ⟨t2, ht2⟩ := hgen (s.accessTokenGenerator_Generate w1).2
  rcases h1 : s.accessTokenGenerator_Generate w1 with ⟨r1, v1⟩
  rw [h1] at ht1 ht2
  simp only at ht1 ht2
  subst ht1
  rcases h2 : s.accessTokenGenerator_Generate v1 with ⟨r2, v2⟩
  rw [h2] at ht2
  simp only at ht2
  subst ht2
  refine ⟨?_, ?_, ?_, ?_, ?_, fun pieces tail hd hscope => ?_⟩
  · by_cases ho : contains (Fields ar.Scope) "openid" = true
    · by_cases hf : contains (Fields ar.Scope) "offline_access" = true
      · simp [issueTokens, ho, hf, h1, h2]
      · simp [issueTokens, ho, hf, h1]
    · simp [issueTokens, ho]
  · by_cases ho : contains (Fields ar.Scope) "openid" = true
    · by_cases hf : contains (Fields ar.Scope) "offline_access" = true
      · simp [issueTokens, ho, hf, h1, h2]
      · simp [issueTokens, ho, hf, h1]
    · simp [issueTokens, ho]
  · by_cases ho : contains (Fields ar.Scope) "openid" = true
    · by_cases hf : contains (Fields ar.Scope) "offline_access" = true
      · simp [issueTokens, ho, hf, h1, h2]
      · simp [issueTokens, ho, hf, h1]
    · simp [issueTokens, ho]
  · by_cases ho : contains (Fields ar.Scope) "openid" = true
    · by_cases hf : contains (Fields ar.Scope) "offline_access" = true
      · simp [issueTokens, ho, hf, h1, h2]
      · simp [issueTokens, ho, hf, h1]
    · simp [issueTokens, ho]
  · intro ho
    simp [issueTokens, ho]
  · have hF : Fields ar.Scope = pieces.map Prod.snd := by
      rw [hscope, Fields_whitespaceDelimited pieces tail hd]
    refine ⟨hF, ?_, ?_⟩
    · rw [← hF]
      intro ho
      by_cases hf : contains (Fields ar.Scope) "offline_access" = true
      · simp [issueTokens, ho, hf, h1, h2]
      · simp [issueTokens, ho, hf, h1]
    · rw [← hF]
      intro ho
      simp [issueTokens, ho]

/-- C5 at the PKCE example. With the scope "openid offline_access" the holder carries the
first generator output as access token and the second as refresh token; with the scope
"openid" the refresh token is unset; with the scope "profile offline_access" there is no
holder and the generator is not called. -/
theorem authorizationCode_scope_policy_witness :
    Fields "openid offline_access" = ["openid", "offline_access"] ∧
    (authorizationCode StringArray.Contains (stub []) (some exampleClient)
        (some (exampleToken "verifier-xyz")) (exampleWorld "openid offline_access")).res
      = { Error := none,
          Openid := some { AccessToken := "tok-0", TokenType := "Bearer", ExpiresIn := 3600,
                           RefreshToken := some "tok-1" } } ∧
    (authorizationCode StringArray.Contains (stub []) (some exampleClient)
        (some (exampleToken "verifier-xyz")) (exampleWorld "openid")).res
      = { Error := none,
          Openid := some { AccessToken := "tok-0", TokenType := "Bearer", ExpiresIn := 3600,
                           RefreshToken := none } } ∧
    (∃ o, (authorizationCode StringArray.Contains (stub []) (some exampleClient)
          (some (exampleToken "verifier-xyz"))
          (exampleWorld "openid offline_access")).res.Openid = some o ∧
        ((stub []).accessTokenGenerator_Generate { grants := [], minted := 0 }).1
          = Except.ok o.AccessToken ∧
        o.TokenType = "Bearer" ∧ o.ExpiresIn = 3600 ∧
        (StringArray.Contains ["openid", "offline_access"] "offline_access" = true →
          ∃ rt, o.RefreshToken = some rt ∧
            ((stub []).accessTokenGenerator_Generate
              ((stub []).accessTokenGenerator_Generate { grants := [], minted := 0 }).2).1
              = Except.ok rt) ∧
        (StringArray.Contains ["openid", "offline_access"] "offline_access" = false →
          o.RefreshToken = none)) ∧
    ((authorizationCode StringArray.Contains (stub []) (some exampleClient)
        (some (exampleToken "verifier-xyz")) (exampleWorld "profile offline_access")).res
      = { Error := none, Openid := none } ∧
    (authorizationCode StringArray.Contains (stub []) (some exampleClient)
        (some (exampleToken "verifier-xyz")) (exampleWorld "profile offline_access")).err
      = none ∧
    (authorizationCode StringArray.Contains (counting (stub [])) (some exampleClient)
        (some (exampleToken "verifier-xyz"))
        (exampleWorld "profile offline_access", { })).world.2
      = { lookups := ["abc123"], generated := 0 }) :=
  ⟨by decide, by decide, by decide,
   ((authorizationCode_scope_policy StringArray.Contains (stub []) exampleClient
      (exampleToken "verifier-xyz") (exampleGrant "verifier-xyz")
      (exampleRequest "openid offline_access") (exampleWorld "openid offline_access")
      { grants := [], minted := 0 } { }
      rfl (by decide) (by decide) (by decide) (by decide) rfl rfl (by decide) (Or.inl rfl)
      computedVerifier_example (fun v => by simp [stub])).2.2.2.2.2
      [([], "openid"), ([' '], "offline_access")] []
      ⟨by decide, by decide, by decide, by decide⟩ (by decide)).2.1 (by decide),
   (authorizationCode_scope_policy StringArray.Contains (stub []) exampleClient
    (exampleToken "verifier-xyz") (exampleGrant "verifier-xyz")
    (exampleRequest "profile offline_access") (exampleWorld "profile offline_access")
    { grants := [], minted := 0 } { }
    rfl (by decide) (by decide) (by decide) (by decide) rfl rfl (by decide) (Or.inl rfl)
    computedVerifier_example (fun v => by simp [stub])).2.2.2.2.1 (by decide)⟩

/-- C9. In a fully validated exchange whose scope contains "openid", a generator failure on the
access-token call, or, when the scope also contains "offline_access", on the refresh-token call
after a successful access-token call, gives the server_error response with the resolved state, a
diagnostic and no token holder: the access token already generated is not returned. -/
theorem authorizationCode_generator_failure {σ : Type}
    (contains : StringArray → String → Bool)
    (s : service σ) (client : Client) (req : TokenRequest) (g : GrantAuthorizationCode)
    (ar : AuthorizationRequest) (w w1 : σ)
    (hreq : TokenRequest.GetAuthorizationCode (some req) = some g)
    (hgt : contains client.GrantTypes "authorization_code" = true)
    (hcode : g.Code ≠ "") (hver : g.CodeVerifier ≠ "") (huri : g.RedirectUri ≠ "")
    (hstore : s.authorizationRequests_GetByCode g.Code w = (Except.ok ar, w1))
    (hredir : ar.RedirectUri = g.RedirectUri)
    (hmem : contains client.RedirectUris g.RedirectUri = true)
    (hmeth : ar.CodeChallengeMethod = "S256" ∨ ar.CodeChallengeMethod = "s256")
    (hch : computedVerifier g.CodeVerifier = ar.CodeChallenge)
    (hopen : contains (Fields ar.Scope) "openid" = true)
    (hfail : (∃ e, (s.accessTokenGenerator_Generate w1).1 = Except.error e) ∨
      (contains (Fields ar.Scope) "offline_access" = true ∧
        (∃ t, (s.accessTokenGenerator_Generate w1).1 = Except.ok t) ∧
        ∃ e, (s.accessTokenGenerator_Generate (s.accessTokenGenerator_Generate w1).2).1
          = Except.error e)) :
    (authorizationCode contains s (some client) (some req) w).res
      = { Error := some { Err := "server_error", State := ar.State }, Openid := none } ∧
    (authorizationCode contains s (some client) (some req) w).err ≠ none := by
  rw [authorizationCode_issue contains s client req g ar w w1 hreq hgt hcode hver huri hstore
      hredir hmem hmeth hch]
  rcases h1 : s.accessTokenGenerator_Generate w1 with ⟨r1, v1⟩
  rw [h1] at hfail
  simp only at hfail
  rcases hfail with ⟨e, he⟩ | ⟨hoff, ⟨t, ht⟩, e, he⟩
  · subst he
    simp [issueTokens, hopen, h1, rfcerrors.ServerError]
  · subst ht
    rcases h2 : s.accessTokenGenerator_Generate v1 with ⟨r2, v2⟩
    rw [h2] at he
    simp only at he
    subst he
    simp [issueTokens, hopen, hoff, h1, h2, rfcerrors.ServerError]

/-- C9 at the PKCE example with the scope "openid offline_access" and a generator that fails on
its second call: the first token, "tok-0", is not returned. -/
theorem authorizationCode_generator_failure_witness :
    ((stub [1]).accessTokenGenerator_Generate { grants := [], minted := 0 }).1
      = Except.ok "tok-0" ∧
    (authorizationCode StringArray.Contains (stub [1]) (some exampleClient)
        (some (exampleToken "verifier-xyz")) (exampleWorld "openid offline_access")).res
      = { Error := some { Err := "server_error", State := "af0ifjsldkj" }, Openid := none } ∧
    (authorizationCode StringArray.Contains (stub [1]) (some exampleClient)
        (some (exampleToken "verifier-xyz")) (exampleWorld "openid offline_access")).err
      ≠ none :=
  ⟨rfl, authorizationCode_generator_failure StringArray.Contains (stub [1]) exampleClient
    (exampleToken "verifier-xyz") (exampleGrant "verifier-xyz")
    (exampleRequest "openid offline_access") (exampleWorld "openid offline_access")
    { grants := [], minted := 0 }
    rfl (by decide) (by decide) (by decide) (by decide) rfl rfl (by decide) (Or.inl rfl)
    computedVerifier_example (by decide)
    (Or.inr ⟨by decide, ⟨"tok-0", rfl⟩, ⟨error.other "generator failure", rfl⟩⟩)⟩

/-- C7. In an exchange that reaches the PKCE step, the stored method is accepted exactly when
it equals "S256" up to ASCII case: then the digest comparison alone decides between the
mismatch failure and issuance. Every other method, the empty one and "plain" included, is
rejected with invalid_grant and the resolved state, whatever the stored challenge is (the
verifier itself, its digest, or anything else), and the counting generator sees no call. -/
theorem authorizationCode_pkce_method {σ : Type} (contains : StringArray → String → Bool)
    (s : service σ) (client : Client) (req : TokenRequest) (g : GrantAuthorizationCode)
    (ar : AuthorizationRequest) (w w1 : σ) (c : Calls)
    (hreq : TokenRequest.GetAuthorizationCode (some req) = some g)
    (hgt : contains client.GrantTypes "authorization_code" = true)
    (hcode : g.Code ≠ "") (hver : g.CodeVerifier ≠ "") (huri : g.RedirectUri ≠ "")
    (hstore : s.authorizationRequests_GetByCode g.Code w = (Except.ok ar, w1))
    (hredir : ar.RedirectUri = g.RedirectUri)
    (hmem : contains client.RedirectUris g.RedirectUri = true) :
    (equalFoldASCII ar.CodeChallengeMethod "S256" = true →
      authorizationCode contains s (some client) (some req) w =
        if computedVerifier g.CodeVerifier = ar.CodeChallenge then issueTokens contains s ar w1
        else
          { res := { Error := some { Err := "invalid_grant", State := ar.State },
                     Openid := none },
            err := some (error.Errorf
              "unable to validate PKCE code_verifier `%s` and code_challenge `%s`"
              [computedVerifier g.CodeVerifier, ar.CodeChallenge]),
            world := w1 }) ∧
    (equalFoldASCII ar.CodeChallengeMethod "S256" = false →
      authorizationCode contains s (some client) (some req) w =
        { res := { Error := some { Err := "invalid_grant", State := ar.State },
                   Openid := none },
          err := some (error.Errorf "invalid code_challenge_method in request `%s`"
            [ar.CodeChallengeMethod]),
          world := w1 } ∧
      (authorizationCode contains (counting s) (some client) (some req) (w, c)).world.2
        = { lookups := c.lookups ++ [g.Code], generated := c.generated }) := by
  rw [authorizationCode_pkce contains s client req g ar w w1 hreq hgt hcode hver huri hstore
      hredir hmem,
    authorizationCode_pkce contains (counting s) client req g ar (w, c) _ hreq hgt hcode hver
      huri (counting_lookup_eq s g.Code w w1 c _ hstore) hredir hmem]
  unfold checkPKCE
  rw [switch_eq_equalFold]
  refine ⟨fun h => ?_, fun h => ?_⟩
  · by_cases hd : computedVerifier g.CodeVerifier = ar.CodeChallenge
    · simp [h, hd]
    · simp [h, hd, rfcerrors.InvalidGrant]
  · simp [h, rfcerrors.InvalidGrant]

/-- C7 at a stored method "plain" whose challenge is the verifier itself: rejected. -/
theorem authorizationCode_pkce_method_witness :
    plainRequest.CodeChallenge = (exampleGrant "verifier-xyz").CodeVerifier ∧
    authorizationCode StringArray.Contains (stub []) (some exampleClient)
        (some (exampleToken "verifier-xyz"))
        { grants := [("abc123", Except.ok plainRequest)], minted := 0 } =
      { res := { Error := some { Err := "invalid_grant", State := "af0ifjsldkj" },
                 Openid := none },
        err := some (error.Errorf "invalid code_challenge_method in request `%s`" ["plain"]),
        world := { grants := [], minted := 0 } } ∧
    (authorizationCode StringArray.Contains (counting (stub [])) (some exampleClient)
        (some (exampleToken "verifier-xyz"))
        ({ grants := [("abc123", Except.ok plainRequest)], minted := 0 }, { })).world.2
      = { lookups := ["abc123"], generated := 0 } :=
  ⟨rfl, (authorizationCode_pkce_method StringArray.Contains (stub []) exampleClient
    (exampleToken "verifier-xyz") (exampleGrant "verifier-xyz") plainRequest
    { grants := [("abc123", Except.ok plainRequest)], minted := 0 }
    { grants := [], minted := 0 } { }
    rfl (by decide) (by decide) (by decide) (by decide) rfl rfl (by decide)).2 (by decide)⟩

/-- C6. Once the nil guard, the capability check and the field-presence check have passed, a
lookup that fails with the not-found error gives invalid_grant, a lookup that fails with any
other error gives server_error, both with an empty state, and the counting generator sees no
call. Hence a replay: when a valid exchange is made and the store then answers not-found for
the same code, the first call succeeds and the second, made in the world the first one left,
gives invalid_grant. -/
theorem authorizationCode_grant_resolution {σ : Type} (contains : StringArray → String → Bool)
    (s : service σ) (client : Client) (req : TokenRequest) (g : GrantAuthorizationCode)
    (w : σ) (c : Calls)
    (hreq : TokenRequest.GetAuthorizationCode (some req) = some g)
    (hgt : contains client.GrantTypes "authorization_code" = true)
    (hcode : g.Code ≠ "") (hver : g.CodeVerifier ≠ "") (huri : g.RedirectUri ≠ "") :
    (∀ e w1, s.authorizationRequests_GetByCode g.Code w = (Except.error e, w1) →
      (e = error.ErrNotFound →
        (authorizationCode contains s (some client) (some req) w).res
          = { Error := some { Err := "invalid_grant", State := "" }, Openid := none }) ∧
      (e ≠ error.ErrNotFound →
        (authorizationCode contains s (some client) (some req) w).res
          = { Error := some { Err := "server_error", State := "" }, Openid := none }) ∧
      (authorizationCode contains s (some client) (some req) w).err ≠ none ∧
      (authorizationCode contains (counting s) (some client) (some req) (w, c)).world.2
        = { lookups := c.lookups ++ [g.Code], generated := c.generated }) ∧
    (∀ ar w1, s.authorizationRequests_GetByCode g.Code w = (Except.ok ar, w1) →
      ar.RedirectUri = g.RedirectUri → contains client.RedirectUris g.RedirectUri = true →
      (ar.CodeChallengeMethod = "S256" ∨ ar.CodeChallengeMethod = "s256") →
      computedVerifier g.CodeVerifier = ar.CodeChallenge →
      (∀ v, ∃ t, (s.accessTokenGenerator_Generate v).1 = Except.ok t) →
      (s.authorizationRequests_GetByCode g.Code
          (authorizationCode contains s (some client) (some req) w).world).1
        = Except.error error.ErrNotFound →
      (authorizationCode contains s (some client) (some req) w).res.Error = none ∧
      (authorizationCode contains s (some client) (some req) w).err = none ∧
      (authorizationCode contains s (some client) (some req)
          (authorizationCode contains s (some client) (some req) w).world).res
        = { Error := some { Err := "invalid_grant", State := "" }, Openid := none }) := by
  refine ⟨fun e w1 hstore => ?_, fun ar w1 hstore hredir hmem hmeth hch hgen hsecond => ?_⟩
  · rw [authorizationCode_lookup contains s client req g w hreq hgt hcode hver huri, hstore,
      authorizationCode_lookup contains (counting s) client req g (w, c) hreq hgt hcode hver
        huri,
      counting_lookup_eq s g.Code w w1 c _ hstore]
    refine ⟨fun he => ?_, fun he => ?_, ?_, ?_⟩
    · simp [he, rfcerrors.InvalidGrant]
    · simp [he, rfcerrors.ServerError]
    · simp
    · simp
  · refine ⟨?_, ?_, ?_⟩
    · exact (authorizationCode_succeeds contains s client req g ar w w1 hreq hgt hcode hver huri
        hstore hredir hmem hmeth hch hgen).1
    · exact (authorizationCode_succeeds contains s client req g ar w w1 hreq hgt hcode hver huri
        hstore hredir hmem hmeth hch hgen).2
    · generalize (authorizationCode contains s (some client) (some req) w).world = v
        at hsecond ⊢
      rcases hv : s.authorizationRequests_GetByCode g.Code v with ⟨r, v1⟩
      rw [hv] at hsecond
      simp only at hsecond
      subst hsecond
      rw [authorizationCode_lookup contains s client req g v hreq hgt hcode hver huri, hv]
      simp [rfcerrors.InvalidGrant]

/-- C6 on the single-use stub store: a lookup failing with a deadline error gives
server_error; the code "abc123" is exchanged twice, the first exchange succeeds and consumes
it, the second is invalid_grant. -/
theorem authorizationCode_grant_resolution_witness :
    ((authorizationCode StringArray.Contains (stub []) (some exampleClient)
        (some (exampleToken "verifier-xyz")) brokenWorld).res
      = { Error := some { Err := "server_error", State := "" }, Openid := none }) ∧
    ((authorizationCode StringArray.Contains (stub []) (some exampleClient)
        (some (exampleToken "verifier-xyz")) (exampleWorld "openid")).res.Error = none ∧
    (authorizationCode StringArray.Contains (stub []) (some exampleClient)
        (some (exampleToken "verifier-xyz")) (exampleWorld "openid")).err = none ∧
    (authorizationCode StringArray.Contains (stub []) (some exampleClient)
        (some (exampleToken "verifier-xyz"))
        (authorizationCode StringArray.Contains (stub []) (some exampleClient)
          (some (exampleToken "verifier-xyz")) (exampleWorld "openid")).world).res
      = { Error := some { Err := "invalid_grant", State := "" }, Openid := none }) :=
  ⟨((authorizationCode_grant_resolution StringArray.Contains (stub []) exampleClient
      (exampleToken "verifier-xyz") (exampleGrant "verifier-xyz") brokenWorld { }
      rfl (by decide) (by decide) (by decide) (by decide)).1
      (error.other "context deadline exceeded") brokenWorld rfl).2.1 (by decide),
   (authorizationCode_grant_resolution StringArray.Contains (stub []) exampleClient
      (exampleToken "verifier-xyz") (exampleGrant "verifier-xyz") (exampleWorld "openid") { }
      rfl (by decide) (by decide) (by decide) (by decide)).2
      (exampleRequest "openid") { grants := [], minted := 0 } rfl rfl (by decide)
      (Or.inl rfl) computedVerifier_example (fun v => by simp [stub]) rfl⟩

/-- C8. Whenever the response carries an error, its state is empty if steps 1 to 4 did not
resolve an authorization request (nil guard, capability check, field presence, failed lookup),
and is the state of the resolved request otherwise (redirect-URI checks, PKCE, generation):
the echoed state is never taken from the token request. -/
theorem authorizationCode_state_echo {σ : Type} (contains : StringArray → String → Bool)
    (s : service σ) (client : Option Client) (req : Option TokenRequest) (w : σ) (e : Error)
    (he : (authorizationCode contains s client req w).res.Error = some e) :
    (resolvedRequest contains s client req w = none → e.State = "") ∧
    (∀ ar, resolvedRequest contains s client req w = some ar → e.State = ar.State) := by
  rcases authorizationCode_shape contains s client req w with ⟨code, d, h1, _⟩ | ⟨h1, _⟩
  · rw [h1] at he
    simp only [Option.some.injEq] at he
    subst he
    refine ⟨fun hn => ?_, fun ar hs => ?_⟩
    · simp [hn]
    · simp [hs]
  · rw [h1] at he
    exact absurd he (by simp)

/-- C8 at the PKCE example with the verifier "wrong": the request is resolved and the error
echoes its state. -/
theorem authorizationCode_state_echo_witness :
    (authorizationCode StringArray.Contains (stub []) (some exampleClient)
        (some (exampleToken "wrong")) (exampleWorld "openid")).res.Error
      = some { Err := "invalid_grant", State := "af0ifjsldkj" } ∧
    resolvedRequest StringArray.Contains (stub []) (some exampleClient)
        (some (exampleToken "wrong")) (exampleWorld "openid") = some (exampleRequest "openid") ∧
    ({ Err := "invalid_grant", State := "af0ifjsldkj" } : Error).State
      = (exampleRequest "openid").State :=
  ⟨by decide, rfl,
   (authorizationCode_state_echo StringArray.Contains (stub []) (some exampleClient)
      (some (exampleToken "wrong")) (exampleWorld "openid")
      { Err := "invalid_grant", State := "af0ifjsldkj" } (by decide)).2
      (exampleRequest "openid") rfl⟩

/-- C10. For every client, request, store and generator, the response is never both error
and success: its error is set exactly when a diagnostic is returned, and a response with an
error carries no token holder. -/
theorem authorizationCode_error_xor_success {σ : Type}
    (contains : StringArray → String → Bool) (s : service σ) (client : Option Client)
    (req : Option TokenRequest) (w : σ) :
    (authorizationCode contains s client req w).res.Error.isSome
      = (authorizationCode contains s client req w).err.isSome ∧
    ((authorizationCode contains s client req w).res.Error = none ∨
      (authorizationCode contains s client req w).res.Openid = none) := by
  rcases authorizationCode_shape contains s client req w with ⟨code, d, h1, h2⟩ | ⟨h1, h2⟩
  · rw [h1, h2]
    exact ⟨rfl, Or.inr rfl⟩
  · rw [h1, h2]
    exact ⟨rfl, Or.inl rfl⟩

/-- C11. When the client is nil, or the request is nil, or the request carries no
authorization_code payload, the handler returns the server_error response with an empty state
and a diagnostic, whatever the other inputs are, and counting collaborators see no call: the
world is untouched. The payload getter answers nil on a nil request. The guard comes before
the capability check, so the client's grant types play no part. -/
theorem authorizationCode_nil_guard {σ : Type} (contains : StringArray → String → Bool)
    (s : service σ) (client : Option Client) (req : Option TokenRequest) (w : σ) (c : Calls)
    (h : client = none ∨ req = none ∨ TokenRequest.GetAuthorizationCode req = none) :
    TokenRequest.GetAuthorizationCode none = none ∧
    (authorizationCode contains s client req w).res
      = { Error := some { Err := "server_error", State := "" }, Openid := none } ∧
    (authorizationCode contains s client req w).err ≠ none ∧
    (authorizationCode contains (counting s) client req (w, c)).world = (w, c) := by
  refine ⟨rfl, ?_⟩
  cases client with
  | none => simp [authorizationCode, rfcerrors.ServerError]
  | some cl =>
    cases req with
    | none => simp [authorizationCode, rfcerrors.ServerError]
    | some r =>
      have hg : TokenRequest.GetAuthorizationCode (some r) = none := by
        rcases h with h | h | h
        · exact absurd h (by simp)
        · exact absurd h (by simp)
        · exact h
      simp [authorizationCode, hg, rfcerrors.ServerError]

/-- C11 at a request without authorization_code payload and a client that lacks the grant
type: server_error, not unsupported_grant_type. -/
theorem authorizationCode_nil_guard_witness :
    StringArray.Contains refreshOnlyClient.GrantTypes "authorization_code" = false ∧
    (TokenRequest.GetAuthorizationCode none = none ∧
    (authorizationCode StringArray.Contains (stub []) (some refreshOnlyClient)
        (some siblingToken) (exampleWorld "openid")).res
      = { Error := some { Err := "server_error", State := "" }, Openid := none } ∧
    (authorizationCode StringArray.Contains (stub []) (some refreshOnlyClient)
        (some siblingToken) (exampleWorld "openid")).err ≠ none ∧
    (authorizationCode StringArray.Contains (counting (stub [])) (some refreshOnlyClient)
        (some siblingToken) (exampleWorld "openid", { })).world
      = (exampleWorld "openid", { })) :=
  ⟨by decide,
   authorizationCode_nil_guard StringArray.Contains (stub []) (some refreshOnlyClient)
    (some siblingToken) (exampleWorld "openid") { } (Or.inr (Or.inr rfl))⟩

/-- C12. For a client that declares "authorization_code" and a request whose payload has an
empty code, an empty code_verifier or an empty redirect_uri, the handler returns the
invalid_grant response with an empty state and a diagnostic, and counting collaborators see no
call: the store is not asked for the code, the world is untouched. -/
theorem authorizationCode_field_presence {σ : Type} (contains : StringArray → String → Bool)
    (s : service σ) (client : Client) (req : TokenRequest) (g : GrantAuthorizationCode)
    (w : σ) (c : Calls)
    (hreq : TokenRequest.GetAuthorizationCode (some req) = some g)
    (hgt : contains client.GrantTypes "authorization_code" = true)
    (h : g.Code = "" ∨ g.CodeVerifier = "" ∨ g.RedirectUri = "") :
    (authorizationCode contains s (some client) (some req) w).res
      = { Error := some { Err := "invalid_grant", State := "" }, Openid := none } ∧
    (authorizationCode contains s (some client) (some req) w).err ≠ none ∧
    (authorizationCode contains (counting s) (some client) (some req) (w, c)).world
      = (w, c) := by
  have hgt2 : contains client.GrantTypes grantTypeAuthorizationCode = true := hgt
  have hf : (g.Code == "" || g.CodeVerifier == "" || g.RedirectUri == "") = true := by
    rcases h with h | h | h <;> simp [h]
  simp [authorizationCode, hreq, hgt2, hf, rfcerrors.InvalidGrant]

/-- C12 at the example client and a request with an empty code, against a store that holds
the example code: nothing is looked up. -/
theorem authorizationCode_field_presence_witness :
    (authorizationCode StringArray.Contains (stub []) (some exampleClient)
        (some noCodeToken) (exampleWorld "openid")).res
      = { Error := some { Err := "invalid_grant", State := "" }, Openid := none } ∧
    (authorizationCode StringArray.Contains (stub []) (some exampleClient)
        (some noCodeToken) (exampleWorld "openid")).err ≠ none ∧
    (authorizationCode StringArray.Contains (counting (stub [])) (some exampleClient)
        (some noCodeToken) (exampleWorld "openid", { })).world
      = (exampleWorld "openid", { }) :=
  authorizationCode_field_presence StringArray.Contains (stub []) exampleClient noCodeToken
    ⟨"", "verifier-xyz", "https://rp.example/cb"⟩ (exampleWorld "openid") { }
    rfl (by decide) (Or.inl rfl)

end Solid
